import Mathlib

/-!
Shallow embedding of `src/app.py`, a single-script air-quality dashboard:
load a table, filter it by the sidebar selection, aggregate, and plot.
The dataframe operations of the script are embedded as list functions;
each definition notes the line of `app.py` it comes from.
-/

namespace AirQuality

/-- One row of the combined air-quality table loaded at `app.py` line 9.
`date` and `hour` stand for `timestamp.dt.date` (as an ordinal day so that
pandas date comparison becomes integer comparison) and `timestamp.dt.hour`;
`pm25` is the `PM2.5` column, `none` standing for a missing (NaN) value,
since `aggfunc='count'` at line 124 counts only non-null values; `wd` is the
wind-direction column.  The remaining pollutant and weather columns are
touched by no filter or aggregate that the development studies and are
omitted from the embedding. -/
structure Row where
  station : String
  Category : String
  date : Int
  hour : Nat
  wd : String
  pm25 : Option Int
deriving DecidableEq

/-- The sidebar filter selection (lines 38-48): a station multiselect, one
air-quality category (possibly the `All Categories` sentinel), a date range
and an hour range. -/
structure Selection where
  stations : List String
  aq_category : String
  start_date : Int
  end_date : Int
  start_hour : Nat
  end_hour : Nat
deriving DecidableEq

/-- Lines 17-20: the fixed custom order of air-quality categories. -/
def aq_categories : List String :=
  ["Good", "Moderate", "Unhealthy for Sensitive Groups",
   "Unhealthy", "Very Unhealthy", "Hazardous"]

/-- Line 38: `['All Stations'] + air_quality_data['station'].unique()`. -/
def station_choices (data : List Row) : List String :=
  "All Stations" :: (data.map Row.station).dedup

/-- Line 41: `['All Categories'] + air_quality_data['Category'].unique()`. -/
def aq_category_choices (data : List Row) : List String :=
  "All Categories" :: (data.map Row.Category).dedup

/-- Lines 51-52: when the `All Stations` sentinel is among the chosen
stations, the selection is replaced by `station_choices[1:]`, the full list
of stations present in the dataset. -/
def selected_stations (data : List Row) (chosen : List String) : List String :=
  if "All Stations" ∈ chosen then (station_choices data).tail else chosen

/-- Line 56: the list the row category is tested against,
`[selected_aq_category] if selected_aq_category != 'All Categories' else
aq_category_choices`. -/
def category_filter_list (data : List Row) (selCat : String) : List String :=
  if selCat ≠ "All Categories" then [selCat] else aq_category_choices data

/-- Lines 54-59: the boolean mask applied to one row: station membership,
category membership, and `between` (inclusive at both ends) on date and
hour. -/
def rowPass (data : List Row) (sel : Selection) (r : Row) : Bool :=
  decide (r.station ∈ selected_stations data sel.stations) &&
  decide (r.Category ∈ category_filter_list data sel.aq_category) &&
  (decide (sel.start_date ≤ r.date) && decide (r.date ≤ sel.end_date)) &&
  (decide (sel.start_hour ≤ r.hour) && decide (r.hour ≤ sel.end_hour))

/-- Lines 54-59: `filtered_data`, the source table restricted to the rows
passing the mask. -/
def filtered_data (data : List Row) (sel : Selection) : List Row :=
  data.filter (rowPass data sel)

/-- Line 67: `filtered_data['Category'].value_counts().reindex(aq_categories,
fill_value=0)`: the summary is indexed by exactly the six fixed categories in
their fixed order, a category absent from the rows receiving count 0. -/
def category_count_summary (rows : List Row) : List (String × Nat) :=
  aq_categories.map (fun c => (c, (rows.filter (fun r => decide (r.Category = c))).length))

/-- Lines 120-126, one cell of the pivot table: `aggfunc='count'` on
`values='PM2.5'` counts the rows of the station/category group whose `PM2.5`
is non-null. -/
def pivot_cell (rows : List Row) (s c : String) : Nat :=
  (rows.filter (fun r =>
    (decide (r.station = s) && decide (r.Category = c)) && r.pm25.isSome)).length

/-- Lines 120-126: the pivot index, the stations present in the rows. -/
def pivot_row_index (rows : List Row) : List String :=
  (rows.map Row.station).dedup

/-- Lines 120-126: the pivot columns, the categories present in the rows. -/
def pivot_col_index (rows : List Row) : List String :=
  (rows.map Row.Category).dedup

/-- The sum of all cells of the pivot table of lines 120-126. -/
def pivot_counts_total (rows : List Row) : Nat :=
  ((pivot_row_index rows).map (fun s =>
    ((pivot_col_index rows).map (fun c => pivot_cell rows s c)).sum)).sum

/-- Line 139: `air_quality_data.groupby(['wd', 'Category']).size()` — the
group size for one wind direction and one category, computed from the
UNfiltered source table. -/
def wind_direction_count (data : List Row) (w c : String) : Nat :=
  (data.filter (fun r => decide (r.wd = w) && decide (r.Category = c))).length

/-- A row of `resample_data` (lines 87-89): the numeric columns of the
filtered table together with the timestamp; selecting columns keeps every
row. -/
structure ResampleRow where
  pm25 : Option Int
  date : Int
  hour : Nat
deriving DecidableEq

/-- Lines 87-89: `resample_data = filtered_data[columns_for_resampling]`. -/
def resample_data (data : List Row) (sel : Selection) : List ResampleRow :=
  (filtered_data data sel).map (fun r => { pm25 := r.pm25, date := r.date, hour := r.hour })

/-- What one top-to-bottom run of the script puts on the page: which charts
are drawn, whether the no-data message is shown, and the counts fed to the
polar chart (when that code is reached). -/
structure RenderPlan where
  pieRendered : Bool
  timeseriesRendered : Bool
  emptyMessageShown : Bool
  scatterRendered : Bool
  stackedBarRendered : Bool
  polarRendered : Bool
  windCounts : String → String → Nat

/-- The render pipeline of lines 64-155: tab 1 always draws the metrics and
the pie chart (lines 67-77); tab 2 draws the monthly time-series chart only
when `resample_data` is non-empty and otherwise writes "No data available
for the selected filters." (lines 92-103); tab 3 always draws the scatter
chart (lines 109-116).  In tab 4 the `px.bar` call of lines 127-134 passes
`y=aq_categories`, and it raises an uncaught ValueError whenever the pivot
table lacks one of the six category columns: the pivot columns are exactly
the categories present in the filtered table, so the call fails whenever
some fixed category is absent from the filtered rows — always, in
particular, on an empty filtered result.  The stacked bar chart therefore
renders only when all six categories appear in the filtered table, and the
polar chart, drawn after it in the same tab, only in that same case; the
polar counts come from the unfiltered `air_quality_data` (line 139). -/
def render (data : List Row) (sel : Selection) : RenderPlan :=
  { pieRendered := true
    timeseriesRendered := !(resample_data data sel).isEmpty
    emptyMessageShown := (resample_data data sel).isEmpty
    scatterRendered := true
    stackedBarRendered :=
      aq_categories.all (fun c => decide (c ∈ pivot_col_index (filtered_data data sel)))
    polarRendered :=
      aq_categories.all (fun c => decide (c ∈ pivot_col_index (filtered_data data sel)))
    windCounts := fun w c => wind_direction_count data w c }

/-! Concrete data used by witnesses and counterexamples. -/

/-- A sample row of station Aotizhongxin with a present `PM2.5` value. -/
def rowA : Row :=
  { station := "Aotizhongxin", Category := "Good", date := 100, hour := 5,
    wd := "NW", pm25 := some 10 }

/-- A sample row of station Changping with a missing `PM2.5` value. -/
def rowB : Row :=
  { station := "Changping", Category := "Moderate", date := 200, hour := 12,
    wd := "NW", pm25 := none }

/-- A two-row sample table. -/
def dataAB : List Row := [rowA, rowB]

/-- A one-row sample table whose only row has a missing `PM2.5` value. -/
def dataB : List Row := [rowB]

/-- The all-sentinel selection with ranges covering the sample data. -/
def selAll : Selection :=
  { stations := ["All Stations"], aq_category := "All Categories",
    start_date := 0, end_date := 300, start_hour := 0, end_hour := 23 }

/-- A selection keeping only station Aotizhongxin. -/
def selStationA : Selection :=
  { stations := ["Aotizhongxin"], aq_category := "All Categories",
    start_date := 0, end_date := 300, start_hour := 0, end_hour := 23 }

/-- A selection with an empty station multiselect. -/
def selNoStations : Selection :=
  { stations := [], aq_category := "All Categories",
    start_date := 0, end_date := 300, start_hour := 0, end_hour := 23 }

/-- A selection whose start date is after its end date. -/
def selBadDates : Selection :=
  { stations := ["All Stations"], aq_category := "All Categories",
    start_date := 10, end_date := 5, start_hour := 0, end_hour := 23 }

/-- A selection whose start date coincides with the date of `rowA`. -/
def selEdge : Selection :=
  { stations := ["All Stations"], aq_category := "All Categories",
    start_date := 100, end_date := 300, start_hour := 0, end_hour := 23 }

/-! Counting helpers: summing per-key group sizes over a duplicate-free key
index that covers every row gives back the number of rows. -/

/-- Summing the constant zero over a list gives zero. -/
theorem sum_map_zero {α : Type} (l : List α) : (l.map (fun _ => (0 : Nat))).sum = 0 := by
  induction l with
  | nil => rfl
  | cons x l ih =>
    simp only [List.map_cons, List.sum_cons, Nat.zero_add]
    exact ih

/-- Pointwise sums of two functions add up over a list. -/
theorem sum_map_add {α : Type} (f g : α → Nat) (l : List α) :
    (l.map (fun x => f x + g x)).sum = (l.map f).sum + (l.map g).sum := by
  induction l with
  | nil => rfl
  | cons x l ih => simp [ih]; omega

/-- An indicator of a key absent from the index sums to zero. -/
theorem sum_ite_not_mem {K : Type} [DecidableEq K] (a : K) (m : Nat) (l : List K)
    (h : a ∉ l) : (l.map (fun k => if a = k then m else 0)).sum = 0 := by
  induction l with
  | nil => rfl
  | cons x l ih =>
    simp only [List.mem_cons, not_or] at h
    simp [List.map_cons, List.sum_cons, h.1, ih h.2]

/-- An indicator of a key present in a duplicate-free index sums to its
value. -/
theorem sum_ite_mem_nodup {K : Type} [DecidableEq K] (a : K) (m : Nat) (l : List K)
    (hn : l.Nodup) (hm : a ∈ l) : (l.map (fun k => if a = k then m else 0)).sum = m := by
  induction l with
  | nil => cases hm
  | cons x l ih =>
    rcases List.mem_cons.mp hm with h | h
    · subst h
      have hx : a ∉ l := (List.nodup_cons.mp hn).1
      simp [sum_ite_not_mem a m l hx]
    · have hxl : x ∉ l := (List.nodup_cons.mp hn).1
      have hax : ¬ (a = x) := fun e => hxl (e ▸ h)
      simp [List.map_cons, List.sum_cons, hax,
        ih (List.nodup_cons.mp hn).2 h]

/-- Grouping rows by one key over a duplicate-free index covering every row:
the group sizes sum to the number of rows. -/
theorem sum_count_by_key {α K : Type} [DecidableEq K] (key : α → K) (rows : List α)
    (keys : List K) (hn : keys.Nodup) (hc : ∀ r ∈ rows, key r ∈ keys) :
    (keys.map (fun k => (rows.filter (fun r => decide (key r = k))).length)).sum
      = rows.length := by
  induction rows with
  | nil =>
    simp only [List.filter_nil, List.length_nil]
    exact sum_map_zero keys
  | cons r rows ih =>
    have hstep : ∀ k : K,
        ((r :: rows).filter (fun x => decide (key x = k))).length
          = (if key r = k then 1 else 0)
            + (rows.filter (fun x => decide (key x = k))).length := by
      intro k
      by_cases h : key r = k <;> simp [List.filter_cons, h] <;> omega
    simp only [hstep]
    rw [sum_map_add (fun k => if key r = k then 1 else 0)
      (fun k => (rows.filter (fun x => decide (key x = k))).length) keys]
    rw [sum_ite_mem_nodup (key r) 1 keys hn (hc r (List.mem_cons_self r rows)),
      ih (fun x hx => hc x (List.mem_cons_of_mem r hx))]
    simp [List.length_cons]
    omega

/-- Grouping rows by a pair of keys over duplicate-free indices covering
every row: the double sum of group sizes is the number of rows. -/
theorem sum_count_by_key2 {α K L : Type} [DecidableEq K] [DecidableEq L]
    (k1 : α → K) (k2 : α → L) (rows : List α) (S : List K) (C : List L)
    (hS : S.Nodup) (hC : C.Nodup) (hc : ∀ r ∈ rows, k1 r ∈ S ∧ k2 r ∈ C) :
    (S.map (fun s => (C.map (fun c =>
      (rows.filter (fun r => decide (k1 r = s) && decide (k2 r = c))).length)).sum)).sum
      = rows.length := by
  induction rows with
  | nil => simp [sum_map_zero]
  | cons r rows ih =>
    have hstep : ∀ (s : K) (c : L),
        ((r :: rows).filter (fun x => decide (k1 x = s) && decide (k2 x = c))).length
          = (if k1 r = s then (if k2 r = c then 1 else 0) else 0)
            + (rows.filter (fun x => decide (k1 x = s) && decide (k2 x = c))).length := by
      intro s c
      by_cases h1 : k1 r = s <;> by_cases h2 : k2 r = c <;>
        simp [List.filter_cons, h1, h2] <;> omega
    simp only [hstep]
    have hsplit : ∀ s : K,
        (C.map (fun c => (if k1 r = s then (if k2 r = c then 1 else 0) else 0)
          + (rows.filter (fun x => decide (k1 x = s) && decide (k2 x = c))).length)).sum
        = (C.map (fun c => if k1 r = s then (if k2 r = c then 1 else 0) else 0)).sum
          + (C.map (fun c =>
              (rows.filter (fun x => decide (k1 x = s) && decide (k2 x = c))).length)).sum :=
      fun s => sum_map_add _ _ C
    simp only [hsplit]
    have hind : ∀ s : K,
        (C.map (fun c => if k1 r = s then (if k2 r = c then 1 else 0) else 0)).sum
          = (if k1 r = s then 1 else 0) := by
      intro s
      by_cases h1 : k1 r = s
      · simp only [h1, eq_self_iff_true, if_true]
        exact sum_ite_mem_nodup (k2 r) 1 C hC (hc r (List.mem_cons_self r rows)).2
      · simp [h1, sum_map_zero]
    simp only [hind]
    rw [sum_map_add (fun s => if k1 r = s then 1 else 0) _ S]
    rw [sum_ite_mem_nodup (k1 r) 1 S hS (hc r (List.mem_cons_self r rows)).1]
    rw [ih (fun x hx => hc x (List.mem_cons_of_mem r hx))]
    simp [List.length_cons]
    omega

/-- Filtering by a conjunction equals filtering by the right conjunct and then
the left one. -/
theorem filter_and_assoc {α : Type} (p q : α → Bool) (l : List α) :
    l.filter (fun a => p a && q a) = (l.filter q).filter p := by
  induction l with
  | nil => rfl
  | cons x l ih =>
    cases hq : q x <;> cases hp : p x <;>
      simp only [List.filter_cons, hq, hp, Bool.and_true, Bool.and_false,
        Bool.false_eq_true, if_false, if_true, ih]

/-- Claim C1: for every filter selection, every row of the filtered table is
a row of the source table and satisfies the selection: its station is among
the (sentinel-expanded) selected stations, its category equals the selected
category unless the selection is the `All Categories` sentinel, its date lies
in the inclusive date range and its hour in the inclusive hour range. -/
theorem C1_filtered_rows_satisfy_selection (data : List Row) (sel : Selection)
    (r : Row) (h : r ∈ filtered_data data sel) :
    r ∈ data ∧
    r.station ∈ selected_stations data sel.stations ∧
    (sel.aq_category = "All Categories" ∨ r.Category = sel.aq_category) ∧
    (sel.start_date ≤ r.date ∧ r.date ≤ sel.end_date) ∧
    (sel.start_hour ≤ r.hour ∧ r.hour ≤ sel.end_hour) := by
  have h' := List.mem_filter.mp h
  have hp := h'.2
  simp only [rowPass, Bool.and_eq_true, decide_eq_true_eq] at hp
  refine ⟨h'.1, hp.1.1.1, ?_, hp.1.2, hp.2⟩
  by_cases hc : sel.aq_category = "All Categories"
  · exact Or.inl hc
  · right
    have hm := hp.1.1.2
    rw [category_filter_list, if_pos hc] at hm
    simpa using hm

/-- The row-inclusion theorem instantiated at the sample table and the
all-sentinel selection. -/
theorem C1_witness :
    rowA ∈ dataAB ∧
    rowA.station ∈ selected_stations dataAB selAll.stations ∧
    (selAll.aq_category = "All Categories" ∨ rowA.Category = selAll.aq_category) ∧
    (selAll.start_date ≤ rowA.date ∧ rowA.date ≤ selAll.end_date) ∧
    (selAll.start_hour ≤ rowA.hour ∧ rowA.hour ≤ selAll.end_hour) :=
  C1_filtered_rows_satisfy_selection dataAB selAll rowA (by decide)

/-- Claim C2: with both `select all` sentinels selected and the date and hour
ranges covering every row, the filtered table equals the unfiltered source
table; the station sentinel expands to the full station domain of the
dataset, and every dataset category passes the category test. -/
theorem C2_sentinels_reproduce_source (data : List Row) (sel : Selection)
    (hs : "All Stations" ∈ sel.stations)
    (hc : sel.aq_category = "All Categories")
    (hr : ∀ r ∈ data, (sel.start_date ≤ r.date ∧ r.date ≤ sel.end_date) ∧
      (sel.start_hour ≤ r.hour ∧ r.hour ≤ sel.end_hour)) :
    filtered_data data sel = data ∧
    selected_stations data sel.stations = (data.map Row.station).dedup ∧
    ∀ r ∈ data, r.Category ∈ category_filter_list data sel.aq_category := by
  have hsel : selected_stations data sel.stations = (data.map Row.station).dedup := by
    rw [selected_stations, if_pos hs]
    rfl
  have hcat : ∀ r ∈ data, r.Category ∈ category_filter_list data sel.aq_category := by
    intro r hrm
    rw [category_filter_list, hc, if_neg (fun h => h rfl)]
    exact List.mem_cons_of_mem _ (List.mem_dedup.mpr (List.mem_map_of_mem Row.Category hrm))
  refine ⟨?_, hsel, hcat⟩
  apply List.filter_eq_self.mpr
  intro r hrm
  simp only [rowPass, Bool.and_eq_true, decide_eq_true_eq]
  refine ⟨⟨⟨?_, hcat r hrm⟩, (hr r hrm).1⟩, (hr r hrm).2⟩
  rw [hsel]
  exact List.mem_dedup.mpr (List.mem_map_of_mem Row.station hrm)

/-- The sentinel theorem instantiated at the sample table and the
all-sentinel selection. -/
theorem C2_witness :
    filtered_data dataAB selAll = dataAB ∧
    selected_stations dataAB selAll.stations = (dataAB.map Row.station).dedup ∧
    ∀ r ∈ dataAB, r.Category ∈ category_filter_list dataAB selAll.aq_category :=
  C2_sentinels_reproduce_source dataAB selAll (by decide) (by decide) (by decide)

/-- Claim C3: date and hour range filtering is inclusive at both bounds: a
source row whose date equals the start or end date (or whose hour equals the
start or end hour) is retained, provided its other attributes satisfy the
selection. -/
theorem C3_inclusive_bounds (data : List Row) (sel : Selection) (r : Row)
    (hmem : r ∈ data)
    (hst : r.station ∈ selected_stations data sel.stations)
    (hcat : r.Category ∈ category_filter_list data sel.aq_category) :
    ((r.date = sel.start_date ∨ r.date = sel.end_date) →
      sel.start_date ≤ sel.end_date →
      sel.start_hour ≤ r.hour → r.hour ≤ sel.end_hour →
      r ∈ filtered_data data sel) ∧
    ((r.hour = sel.start_hour ∨ r.hour = sel.end_hour) →
      sel.start_hour ≤ sel.end_hour →
      sel.start_date ≤ r.date → r.date ≤ sel.end_date →
      r ∈ filtered_data data sel) := by
  constructor
  · rintro (h | h) hle h1 h2 <;>
      exact List.mem_filter.mpr ⟨hmem,
        by
          simp only [rowPass, Bool.and_eq_true, decide_eq_true_eq]
          exact ⟨⟨⟨hst, hcat⟩, by omega, by omega⟩, h1, h2⟩⟩
  · rintro (h | h) hle h1 h2 <;>
      exact List.mem_filter.mpr ⟨hmem,
        by
          simp only [rowPass, Bool.and_eq_true, decide_eq_true_eq]
          exact ⟨⟨⟨hst, hcat⟩, h1, h2⟩, by omega, by omega⟩⟩

/-- The inclusive-bound theorem instantiated at a selection whose start date
coincides with the date of the sample row. -/
theorem C3_witness : rowA ∈ filtered_data dataAB selEdge :=
  (C3_inclusive_bounds dataAB selEdge rowA (by decide) (by decide) (by decide)).1
    (Or.inl (by decide)) (by decide) (by decide) (by decide)

/-- Counterexample to claim C7: under the all-sentinel selection whose ranges
cover the sample table, filtering returns the source table itself, so the
filtered table is not a strict subset of the source. -/
theorem C7_counterexample : filtered_data dataAB selAll = dataAB := by decide

/-- Claim C7 amended: filtering yields a subset of the source table — the
filtered table is a sublist of it — but not in general a proper one. -/
theorem C7_amended_filter_subset (data : List Row) (sel : Selection) :
    (filtered_data data sel).Sublist data :=
  List.filter_sublist data

/-- Claim C9: an empty station multiselect (which also lacks the sentinel)
makes the filtered table empty for every category, date-range and hour-range
choice. -/
theorem C9_empty_station_selection (data : List Row) (sel : Selection)
    (h : sel.stations = []) : filtered_data data sel = [] := by
  apply List.filter_eq_nil_iff.mpr
  intro r hr
  simp only [rowPass, Bool.and_eq_true, decide_eq_true_eq]
  rintro ⟨⟨⟨hmem, -⟩, -⟩, -⟩
  rw [selected_stations, h] at hmem
  simp at hmem

/-- The empty-selection theorem instantiated at the sample table. -/
theorem C9_witness : filtered_data dataAB selNoStations = [] :=
  C9_empty_station_selection dataAB selNoStations rfl

/-- Claim C10: an inverted date range or an inverted hour range makes the
filtered table empty for every station and category choice, inclusive
`between` being unsatisfiable when the lower bound exceeds the upper. -/
theorem C10_inverted_range_empty (data : List Row) (sel : Selection)
    (h : sel.end_date < sel.start_date ∨ sel.end_hour < sel.start_hour) :
    filtered_data data sel = [] := by
  apply List.filter_eq_nil_iff.mpr
  intro r hr
  simp only [rowPass, Bool.and_eq_true, decide_eq_true_eq]
  rintro ⟨⟨-, hd1, hd2⟩, hh1, hh2⟩
  rcases h with h | h <;> omega

/-- The inverted-range theorem instantiated at a selection whose start date
is after its end date. -/
theorem C10_witness : filtered_data dataAB selBadDates = [] :=
  C10_inverted_range_empty dataAB selBadDates (Or.inl (by decide))

/-- Claim C8: the air-quality category domain is the six fixed ordered labels
from Good to Hazardous, and for every filter selection the category-count
summary is indexed by exactly these six labels in this order, a label absent
from the filtered table receiving count 0. -/
theorem C8_category_summary_fixed_index (data : List Row) (sel : Selection) :
    aq_categories = ["Good", "Moderate", "Unhealthy for Sensitive Groups",
      "Unhealthy", "Very Unhealthy", "Hazardous"] ∧
    (category_count_summary (filtered_data data sel)).map Prod.fst = aq_categories ∧
    ∀ p ∈ category_count_summary (filtered_data data sel),
      (∀ r ∈ filtered_data data sel, r.Category ≠ p.1) → p.2 = 0 := by
  refine ⟨rfl, ?_, ?_⟩
  · simp [category_count_summary, List.map_map, Function.comp_def]
  · intro p hp habs
    simp only [category_count_summary, List.mem_map] at hp
    obtain ⟨c, hcmem, hpe⟩ := hp
    subst hpe
    simp only
    rw [List.length_eq_zero]
    apply List.filter_eq_nil_iff.mpr
    intro r hrm
    simp only [decide_eq_true_eq]
    exact fun e => habs r hrm e

/-- The fixed-index theorem instantiated at the sample table, reading off the
zero count of the Hazardous label, which is absent from the filtered rows. -/
theorem C8_witness :
    (category_count_summary (filtered_data dataAB selAll)).map Prod.fst = aq_categories ∧
    ("Hazardous", 0) ∈ category_count_summary (filtered_data dataAB selAll) ∧
    (("Hazardous", 0) : String × Nat).2 = 0 :=
  ⟨(C8_category_summary_fixed_index dataAB selAll).2.1,
   by decide,
   (C8_category_summary_fixed_index dataAB selAll).2.2 ("Hazardous", 0)
     (by decide) (by decide)⟩

/-- Counterexample to claim C4: under the all-sentinel selection on a one-row
table whose row has a missing `PM2.5` value, the filtered table has one row,
yet the pivot counts sum to 0, because `aggfunc='count'` at line 124 counts
only non-null `PM2.5` values. -/
theorem C4_counterexample :
    (filtered_data dataB selAll).length = 1 ∧
    pivot_counts_total (filtered_data dataB selAll) = 0 := by decide

/-- Claim C4 amended: when every row's category is among the six fixed
labels, the six category counts of the summary sum to the number of rows of
the filtered table; the per-station category pivot counts sum to the number
of filtered rows whose `PM2.5` value is present, which equals the filtered
size only when no `PM2.5` value is missing. -/
theorem C4_amended_aggregate_sums (data : List Row) (sel : Selection)
    (hcat : ∀ r ∈ data, r.Category ∈ aq_categories) :
    ((category_count_summary (filtered_data data sel)).map Prod.snd).sum
      = (filtered_data data sel).length ∧
    pivot_counts_total (filtered_data data sel)
      = ((filtered_data data sel).filter (fun r => r.pm25.isSome)).length := by
  constructor
  · have hmap : (category_count_summary (filtered_data data sel)).map Prod.snd
        = aq_categories.map (fun c =>
            ((filtered_data data sel).filter (fun r => decide (r.Category = c))).length) := by
      simp [category_count_summary, List.map_map]
    rw [hmap]
    exact sum_count_by_key Row.Category (filtered_data data sel) aq_categories
      (by decide) (fun r hr => hcat r (List.mem_of_mem_filter hr))
  · have hcell : ∀ s c : String, pivot_cell (filtered_data data sel) s c
        = (((filtered_data data sel).filter (fun r => r.pm25.isSome)).filter
            (fun r => decide (r.station = s) && decide (r.Category = c))).length := by
      intro s c
      simp only [pivot_cell]
      rw [filter_and_assoc]
    simp only [pivot_counts_total, pivot_row_index, pivot_col_index, hcell]
    exact sum_count_by_key2 Row.station Row.Category
      ((filtered_data data sel).filter (fun r => r.pm25.isSome))
      ((filtered_data data sel).map Row.station).dedup
      ((filtered_data data sel).map Row.Category).dedup
      (List.nodup_dedup _) (List.nodup_dedup _)
      (fun r hr =>
        ⟨List.mem_dedup.mpr
          (List.mem_map_of_mem Row.station (List.mem_of_mem_filter hr)),
         List.mem_dedup.mpr
          (List.mem_map_of_mem Row.Category (List.mem_of_mem_filter hr))⟩)

/-- The aggregate-sum theorem instantiated at the two-row sample table, one
row of which has a missing `PM2.5` value. -/
theorem C4_witness :
    ((category_count_summary (filtered_data dataAB selAll)).map Prod.snd).sum
      = (filtered_data dataAB selAll).length ∧
    pivot_counts_total (filtered_data dataAB selAll)
      = ((filtered_data dataAB selAll).filter (fun r => r.pm25.isSome)).length :=
  C4_amended_aggregate_sums dataAB selAll (by decide)

/-- Counterexample to claim C5: selecting only station Aotizhongxin filters
out the Changping row, yet the polar-chart count for wind direction NW and
category Moderate is still 1, because line 139 groups the unfiltered
`air_quality_data`; the filtered table contains no such row. -/
theorem C5_counterexample :
    (render dataAB selStationA).windCounts "NW" "Moderate" ≠
      ((filtered_data dataAB selStationA).filter
        (fun r => decide (r.wd = "NW") && decide (r.Category = "Moderate"))).length := by
  decide

/-- Claim C5 amended: the wind-direction-by-category counts rendered by the
polar chart are computed from the unfiltered source table — each count equals
the number of source rows with that wind direction and category — and they do
not depend on the filter selection at all. -/
theorem C5_amended_wind_counts_unfiltered (data : List Row) (sel sel' : Selection)
    (w c : String) :
    (render data sel).windCounts w c
      = (data.filter (fun r => decide (r.wd = w) && decide (r.Category = c))).length ∧
    (render data sel).windCounts w c = (render data sel').windCounts w c :=
  ⟨rfl, rfl⟩

/-- Projecting the filtered table to the resampling columns keeps exactly its
rows, so `resample_data` is empty exactly when the filtered table is. -/
theorem resample_isEmpty (data : List Row) (sel : Selection) :
    (resample_data data sel).isEmpty = (filtered_data data sel).isEmpty := by
  simp only [resample_data]
  cases filtered_data data sel <;> rfl

/-- Counterexample to claim C6: with an empty station multiselect the
filtered result is empty and the no-data message is shown, yet the pie and
scatter charts are still rendered — the message does not stand in for the
derived charts in general — while the stacked-bar and polar charts of tab 4
disappear through an uncaught `px.bar` ValueError, not through any
handling. -/
theorem C6_counterexample :
    (filtered_data dataAB selNoStations).isEmpty = true ∧
    (render dataAB selNoStations).emptyMessageShown = true ∧
    (render dataAB selNoStations).timeseriesRendered = false ∧
    (render dataAB selNoStations).pieRendered = true ∧
    (render dataAB selNoStations).scatterRendered = true ∧
    (render dataAB selNoStations).stackedBarRendered = false ∧
    (render dataAB selNoStations).polarRendered = false := by decide

/-- Claim C6 amended: an empty filtered result is surfaced as the display-only
no-data message exactly when the filtered table is empty — the only condition
the script handles — and the message stands in only for the monthly
time-series chart.  The pie and scatter charts are rendered regardless, and
on an empty filtered result the stacked-bar and polar charts are not rendered
either, but through an uncaught ValueError of `px.bar` at line 127 (the empty
pivot lacks the six category columns), not through handling. -/
theorem C6_amended_empty_result_handling (data : List Row) (sel : Selection) :
    (render data sel).emptyMessageShown = (filtered_data data sel).isEmpty ∧
    (render data sel).timeseriesRendered = !(filtered_data data sel).isEmpty ∧
    (render data sel).pieRendered = true ∧
    (render data sel).scatterRendered = true ∧
    ((filtered_data data sel).isEmpty = true →
      (render data sel).stackedBarRendered = false ∧
      (render data sel).polarRendered = false) := by
  refine ⟨?_, ?_, rfl, rfl, ?_⟩
  · exact resample_isEmpty data sel
  · show (!(resample_data data sel).isEmpty) = (!(filtered_data data sel).isEmpty)
    rw [resample_isEmpty]
  · intro he
    have hnil : filtered_data data sel = [] := List.isEmpty_iff.mp he
    have hbar : (render data sel).stackedBarRendered = false := by
      show aq_categories.all
        (fun c => decide (c ∈ pivot_col_index (filtered_data data sel))) = false
      rw [hnil]
      decide
    exact ⟨hbar, hbar⟩

/-- The empty-result theorem instantiated at the empty station multiselect:
the tab-4 charts are not rendered there. -/
theorem C6_witness :
    (render dataAB selNoStations).stackedBarRendered = false ∧
    (render dataAB selNoStations).polarRendered = false :=
  (C6_amended_empty_result_handling dataAB selNoStations).2.2.2.2 (by decide)

end AirQuality
